import Mathlib

/-!
Verification development for the Coldaine/mcp-notion-server repository.

The repository exposes the Notion REST API as MCP tools. Its core, per the
specification, is the rate-limited HTTP request pipeline with retry and
backoff (NotionClientSimple.request in docs/rate-limiting.md, and the
executeWithRetry method of NotionClientWithRateLimiting), the cursor-based
pagination walker (getAllDatabaseRows in docs/implementation-guide.md), and
the CallToolRequest handler of http-server.js.

This file is a shallow embedding of those functions, translated from the
JavaScript source. Machine-level JavaScript behaviour is modelled
explicitly where the source depends on it: parseInt returning NaN is
modelled as Option.none, truthiness of values is modelled by jsTruthy, and
the JSON values flowing through the pipeline are modelled by the Json
inductive below. Parsed response bodies are assumed well-formed JSON
(response.json() is modelled as total), and property access on non-object
values is modelled as returning undefined.
-/

/-- Model of a JavaScript JSON value: the dynamically typed payloads the
server passes through unchanged. Numbers are modelled as integers (the
fields the core inspects are integral). -/
inductive Json where
  | null : Json
  | jbool (b : Bool) : Json
  | num (n : Int) : Json
  | str (s : String) : Json
  | arr (elems : List Json) : Json
  | obj (fields : List (String × Json)) : Json

theorem json_sizeOf_lt_of_mem {j : Json} {elems : List Json} (h : j ∈ elems) :
    sizeOf j < sizeOf elems := by
  induction elems with
  | nil => cases h
  | cons a tl ih =>
    cases h with
    | head => simp; omega
    | tail _ h => have := ih h; simp; omega

theorem json_sizeOf_snd_lt_of_mem {f : String × Json} {fields : List (String × Json)}
    (h : f ∈ fields) : sizeOf f.2 < sizeOf fields := by
  induction fields with
  | nil => cases h
  | cons a tl ih =>
    cases h with
    | head => cases f with | mk k v => simp; omega
    | tail _ h => have := ih h; simp; omega

/-- Model of JavaScript JSON.stringify(v) with no indentation argument, as
used for the error payload in the http-server.js catch handler. String
escaping is simplified (the keys and messages involved contain no
characters needing escapes). -/
def Json.stringifyCompact : Json → String
  | .null => "null"
  | .jbool true => "true"
  | .jbool false => "false"
  | .num n => toString n
  | .str s => "\"" ++ s ++ "\""
  | .arr elems => "[" ++ String.intercalate ","
      (elems.attach.map (fun e => Json.stringifyCompact e.1)) ++ "]"
  | .obj fields => "\x7b" ++ String.intercalate ","
      (fields.attach.map (fun f => "\"" ++ f.1.1 ++ "\":" ++ Json.stringifyCompact f.1.2)) ++ "\x7d"
termination_by j => sizeOf j
decreasing_by
  · simp only [Json.arr.sizeOf_spec]
    exact Nat.lt_trans (json_sizeOf_lt_of_mem e.2) (by omega)
  · simp only [Json.obj.sizeOf_spec]
    exact Nat.lt_trans (json_sizeOf_snd_lt_of_mem f.2) (by omega)

/-- Two-space indentation blanks used by JSON.stringify(v, null, 2). -/
def indentBlanks (level : Nat) : String :=
  String.mk (List.replicate (2 * level) ' ')

/-- Model of JavaScript JSON.stringify(v, null, 2): pretty-printing with a
two-space indent, as used for tool responses in http-server.js. -/
def Json.stringifyIndent : Nat → Json → String
  | _, .null => "null"
  | _, .jbool true => "true"
  | _, .jbool false => "false"
  | _, .num n => toString n
  | _, .str s => "\"" ++ s ++ "\""
  | _, .arr [] => "[]"
  | level, .arr elems => "[\n" ++ String.intercalate ",\n"
      (elems.attach.map (fun e =>
        indentBlanks (level + 1) ++ Json.stringifyIndent (level + 1) e.1)) ++
      "\n" ++ indentBlanks level ++ "]"
  | _, .obj [] => "\x7b\x7d"
  | level, .obj fields => "\x7b\n" ++ String.intercalate ",\n"
      (fields.attach.map (fun f =>
        indentBlanks (level + 1) ++ "\"" ++ f.1.1 ++ "\": " ++
          Json.stringifyIndent (level + 1) f.1.2)) ++
      "\n" ++ indentBlanks level ++ "\x7d"
termination_by _ j => sizeOf j
decreasing_by
  · simp only [Json.arr.sizeOf_spec]
    exact Nat.lt_trans (json_sizeOf_lt_of_mem e.2) (by omega)
  · simp only [Json.obj.sizeOf_spec]
    exact Nat.lt_trans (json_sizeOf_snd_lt_of_mem f.2) (by omega)

/-- Serialization used by both response-formatting branches of the
CallToolRequest handler: JSON.stringify(response, null, 2). -/
def jsonStringifyPretty (j : Json) : String :=
  Json.stringifyIndent 0 j

/-- JavaScript truthiness of a JSON value: null, false, 0 and the empty
string are falsy; every array and object is truthy. -/
def jsTruthy : Json → Bool
  | .null => false
  | .jbool b => b
  | .num n => !(n == 0)
  | .str s => !(s == "")
  | .arr _ => true
  | .obj _ => true

/-- JavaScript truthiness where the value may be undefined (modelled as
none). -/
def jsTruthyOpt : Option Json → Bool
  | none => false
  | some j => jsTruthy j

/-- The JavaScript test of typeof v being the string object: true for
objects, arrays and null. -/
def jsTypeofObject : Json → Bool
  | .null => true
  | .arr _ => true
  | .obj _ => true
  | _ => false

/-- First binding of a key in a JSON object field list. -/
def lookupField : List (String × Json) → String → Option Json
  | [], _ => none
  | (k, v) :: rest, key => if k == key then some v else lookupField rest key

/-- JavaScript property access v.key on a JSON value: undefined (none) when
the key is missing or the value is not an object. -/
def objGet : Json → String → Option Json
  | .obj fields, key => lookupField fields key
  | _, _ => none

/-- Property access through a possibly-undefined value, as in args.block_id
after the arguments object has passed its truthiness check. -/
def jsGet (args : Option Json) (key : String) : Option Json :=
  match args with
  | some j => objGet j key
  | none => none

/-- Decimal digit test used by the parseInt model. -/
def isDecDigit (c : Char) : Bool :=
  '0' ≤ c && c ≤ '9'

/-- Value of a list of decimal digit characters. -/
def decDigitsVal (cs : List Char) : Nat :=
  cs.foldl (fun acc c => acc * 10 + (c.toNat - '0'.toNat)) 0

/-- Model of JavaScript parseInt(s) on decimal input: skip leading
whitespace, read an optional sign and then the longest leading run of
decimal digits; the NaN result (no digits found) is modelled as none. -/
def jsParseInt (s : String) : Option Int :=
  let cs := s.data.dropWhile (fun c => c = ' ' || c = '\t' || c = '\n' || c = '\r')
  match cs with
  | '-' :: t =>
      let ds := t.takeWhile isDecDigit
      if ds.isEmpty then none else some (-(decDigitsVal ds : Int))
  | '+' :: t =>
      let ds := t.takeWhile isDecDigit
      if ds.isEmpty then none else some ((decDigitsVal ds : Int))
  | t =>
      let ds := t.takeWhile isDecDigit
      if ds.isEmpty then none else some ((decDigitsVal ds : Int))

/-- Truthiness of the string | null result of response.headers.get: null
(none) and the empty string are falsy. -/
def jsTruthyStr : Option String → Bool
  | none => false
  | some s => !(s == "")

/-- Outcome of one fetch call inside the retry loop of
NotionClientSimple.request: either an HTTP response (status, the
Retry-After header as returned by headers.get, the parsed JSON body, and
statusText) or a rejected fetch promise (network error). -/
inductive FetchOutcome where
  | response (status : Nat) (retryAfter : Option String) (body : Json) (statusText : String)
  | networkError (msg : String)

/-- Error surfaced by NotionClientSimple.request: the Error built from a
non-ok response (carrying status, message and code), a rethrown network
error, or the final Max-retries-exceeded error of the exhausted loop. -/
inductive RequestError where
  | apiError (status : Nat) (message : Json) (code : Option Json)
  | networkError (msg : String)
  | maxRetriesExceeded

/-- Observable run of one request call: how many fetches were sent, the
sleep durations in milliseconds passed to setTimeout before each retry
(none models NaN), and the settled result. -/
structure RunResult where
  requests : Nat
  delays : List (Option Int)
  result : Except RequestError Json

/-- The Error message for a non-ok response: data.message ||
response.statusText (source line 317 of docs/rate-limiting.md section 1,
NotionClientSimple). -/
def apiErrorMessage (body : Json) (statusText : String) : Json :=
  match objGet body "message" with
  | some v => if jsTruthy v then v else Json.str statusText
  | none => Json.str statusText

/-- The 429 wait computation of NotionClientSimple.request (line 303):
waitSeconds = retryAfter ? parseInt(retryAfter) : Math.pow(2, attempt + 1).
The none result models NaN from parseInt on an unparseable header. -/
def rateLimitWaitSeconds (retryAfter : Option String) (attempt : Nat) : Option Int :=
  if jsTruthyStr retryAfter then jsParseInt (retryAfter.getD "")
  else some ((2 : Int) ^ (attempt + 1))

/-- The 429 delay computation of the executeWithRetry method of
NotionClientWithRateLimiting (docs/rate-limiting.md lines 327-330), before
jitter is applied: delay = retryAfter ? parseInt(retryAfter) * 1000 :
Math.pow(2, attempt + 1) * 1000. -/
def executeWithRetryDelay (retryAfter : Option String) (attempt : Nat) : Option Int :=
  if jsTruthyStr retryAfter then (jsParseInt (retryAfter.getD "")).map (fun n => n * 1000)
  else some ((2 : Int) ^ (attempt + 1) * 1000)

/-- Body of the while loop of NotionClientSimple.request, indexed by the
remaining loop budget fuel = maxRetries - attempt. Fuel zero is the normal
loop exit (attempt = maxRetries), reaching the final Max-retries-exceeded
throw. A 429 response retries (recording waitSeconds * 1000) only while
attempt < maxRetries - 1, that is fuel > 1; otherwise the response falls
through to the ok check, throwing an Error carrying the status, which the
catch block rethrows because it has a status. A rejected fetch (no status
field) retries with the exponential delay under the same budget check. -/
def requestGo (outcomes : Nat → FetchOutcome) (attempt : Nat) : Nat → RunResult
  | 0 => ⟨0, [], Except.error RequestError.maxRetriesExceeded⟩
  | fuel + 1 =>
    match outcomes attempt with
    | FetchOutcome.networkError msg =>
        if fuel ≠ 0 then
          ⟨(requestGo outcomes (attempt + 1) fuel).requests + 1,
            some ((2 : Int) ^ (attempt + 1) * 1000) :: (requestGo outcomes (attempt + 1) fuel).delays,
            (requestGo outcomes (attempt + 1) fuel).result⟩
        else ⟨1, [], Except.error (RequestError.networkError msg)⟩
    | FetchOutcome.response status retryAfter body statusText =>
        if status = 429 ∧ fuel ≠ 0 then
          ⟨(requestGo outcomes (attempt + 1) fuel).requests + 1,
            (rateLimitWaitSeconds retryAfter attempt).map (fun n => n * 1000) ::
              (requestGo outcomes (attempt + 1) fuel).delays,
            (requestGo outcomes (attempt + 1) fuel).result⟩
        else if 200 ≤ status ∧ status < 300 then ⟨1, [], Except.ok body⟩
        else ⟨1, [], Except.error (RequestError.apiError status
          (apiErrorMessage body statusText) (objGet body "code"))⟩

/-- NotionClientSimple.request (docs/rate-limiting.md lines 290-340): the
retry loop over a stream of fetch outcomes, where outcomes i is what the
fetch of the (zero-based) attempt i produces. -/
def request (outcomes : Nat → FetchOutcome) (maxRetries : Nat) : RunResult :=
  requestGo outcomes 0 maxRetries

/-- Exponential pre-jitter delays 2^(attempt+1) * 1000 recorded by n
consecutive retries starting at the given attempt number. -/
def expDelaysFrom (attempt : Nat) : Nat → List (Option Int)
  | 0 => []
  | n + 1 => some ((2 : Int) ^ (attempt + 1) * 1000) :: expDelaysFrom (attempt + 1) n

/-- The fields of a database query response page inspected by the
pagination walker getAllDatabaseRows: results, has_more, next_cursor
(string | null | undefined, modelled as Option String). -/
structure QueryResponse where
  results : List Json
  has_more : Bool
  next_cursor : Option String

/-- The cursor validation of getAllDatabaseRows (implementation-guide.md
line 223): response.has_more && response.next_cursor &&
response.next_cursor strictly unequal to the literal string null. -/
def validNextCursor (r : QueryResponse) : Bool :=
  r.has_more && (match r.next_cursor with
    | some s => !(s == "") && !(s == "null")
    | none => false)

/-- Observable run of one pagination walk: the start_cursor of every
request sent, in order (none is the absent initial cursor), and the
accumulated allRows array returned. -/
structure WalkResult where
  requests : List (Option String)
  rows : List Json

/-- Body of the do-while loop of getAllDatabaseRows, indexed by the number
of additional pages the pageCount < maxPages guard still allows after the
current one. The body always runs: it queries with the current cursor and
concatenates response.results; it continues only when the cursor
validation passes and the budget is not exhausted. -/
def getAllRowsGo (fetch : Option String → QueryResponse) : Option String → Nat → WalkResult
  | cursor, 0 => ⟨[cursor], (fetch cursor).results⟩
  | cursor, fuel + 1 =>
      if validNextCursor (fetch cursor) then
        ⟨cursor :: (getAllRowsGo fetch (some ((fetch cursor).next_cursor.getD "")) fuel).requests,
          (fetch cursor).results ++
            (getAllRowsGo fetch (some ((fetch cursor).next_cursor.getD "")) fuel).rows⟩
      else ⟨[cursor], (fetch cursor).results⟩

/-- getAllDatabaseRows (implementation-guide.md lines 205-233): the
pagination walker over a server modelled as a function from the requested
start_cursor to the page returned for it. The source fixes maxPages = 100;
it is a parameter here so the page-count ceiling scenarios can be stated.
With that constant, pageCount permits maxPages - 1 loop re-entries after
the first page, hence the fuel below. -/
def getAllDatabaseRows (fetch : Option String → QueryResponse) (maxPages : Nat) : WalkResult :=
  getAllRowsGo fetch none (maxPages - 1)

/-- The server serves this chain of pages to the walker: each page is
returned for the cursor the previous one announced, every page but the
last passes the cursor validation, and the last page reports has_more
false. -/
def ServesChain (fetch : Option String → QueryResponse) :
    Option String → List QueryResponse → Prop
  | _, [] => True
  | c, [p] => fetch c = p ∧ p.has_more = false
  | c, p :: q :: rest => fetch c = p ∧ validNextCursor p = true ∧
      ServesChain fetch (some (p.next_cursor.getD "")) (q :: rest)

/-- The server serves this chain of pages to the walker, every one of which
reports has_more true with a valid next_cursor: more pages always exist
beyond the listed ones. -/
def ServesMore (fetch : Option String → QueryResponse) :
    Option String → List QueryResponse → Prop
  | _, [] => True
  | c, p :: rest => fetch c = p ∧ validNextCursor p = true ∧
      ServesMore fetch (some (p.next_cursor.getD "")) rest

/-- The call the CallToolRequest handler of http-server.js routes to the
NotionClientWrapper, one constructor per tool case of the switch, carrying
the argument values the handler passes (none models undefined). -/
inductive ClientCall where
  | appendBlockChildren (block_id children : Option Json)
  | retrieveBlock (block_id : Option Json)
  | retrieveBlockChildren (block_id start_cursor page_size : Option Json)
  | deleteBlock (block_id : Option Json)
  | updateBlock (block_id block : Option Json)
  | retrievePage (page_id : Option Json)
  | updatePageProperties (page_id properties : Option Json)
  | listAllUsers (start_cursor page_size : Option Json)
  | retrieveUser (user_id : Option Json)
  | retrieveBotUser
  | createDatabase (parent properties title is_inline : Option Json)
  | queryDatabase (database_id filter sorts start_cursor page_size : Option Json)
  | retrieveDatabase (database_id : Option Json)
  | updateDatabase (database_id title description properties : Option Json)
  | createDatabaseItem (parent properties : Option Json)
  | createComment (parent rich_text : Option Json)
  | retrieveComments (block_id start_cursor page_size : Option Json)
  | search (query filter sort start_cursor page_size : Option Json)

/-- The parts of a CallToolRequest the handler inspects: the tool name and
the arguments object (undefined modelled as none). -/
structure CallToolRequest where
  name : String
  arguments : Option Json

/-- The try block of the CallToolRequest handler (http-server.js lines
58-231): argument presence check, the switch over tool names with the
per-tool required-argument checks, and the client call. A thrown Error is
modelled as Except.error carrying its message; the awaited client call is
modelled as a function that may itself fail with a message. -/
def handleCallToolBody (client : ClientCall → Except String Json)
    (req : CallToolRequest) : Except String Json :=
  if !jsTruthyOpt req.arguments then Except.error "No arguments provided"
  else
    let args := req.arguments
    match req.name with
    | "notion_append_block_children" =>
        if !jsTruthyOpt (jsGet args "block_id") || !jsTruthyOpt (jsGet args "children") then
          Except.error "Missing required arguments: block_id and children"
        else client (ClientCall.appendBlockChildren (jsGet args "block_id") (jsGet args "children"))
    | "notion_retrieve_block" =>
        if !jsTruthyOpt (jsGet args "block_id") then
          Except.error "Missing required argument: block_id"
        else client (ClientCall.retrieveBlock (jsGet args "block_id"))
    | "notion_retrieve_block_children" =>
        if !jsTruthyOpt (jsGet args "block_id") then
          Except.error "Missing required argument: block_id"
        else client (ClientCall.retrieveBlockChildren (jsGet args "block_id")
          (jsGet args "start_cursor") (jsGet args "page_size"))
    | "notion_delete_block" =>
        if !jsTruthyOpt (jsGet args "block_id") then
          Except.error "Missing required argument: block_id"
        else client (ClientCall.deleteBlock (jsGet args "block_id"))
    | "notion_update_block" =>
        if !jsTruthyOpt (jsGet args "block_id") || !jsTruthyOpt (jsGet args "block") then
          Except.error "Missing required arguments: block_id and block"
        else client (ClientCall.updateBlock (jsGet args "block_id") (jsGet args "block"))
    | "notion_retrieve_page" =>
        if !jsTruthyOpt (jsGet args "page_id") then
          Except.error "Missing required argument: page_id"
        else client (ClientCall.retrievePage (jsGet args "page_id"))
    | "notion_update_page_properties" =>
        if !jsTruthyOpt (jsGet args "page_id") || !jsTruthyOpt (jsGet args "properties") then
          Except.error "Missing required arguments: page_id and properties"
        else client (ClientCall.updatePageProperties (jsGet args "page_id")
          (jsGet args "properties"))
    | "notion_list_all_users" =>
        client (ClientCall.listAllUsers (jsGet args "start_cursor") (jsGet args "page_size"))
    | "notion_retrieve_user" =>
        if !jsTruthyOpt (jsGet args "user_id") then
          Except.error "Missing required argument: user_id"
        else client (ClientCall.retrieveUser (jsGet args "user_id"))
    | "notion_retrieve_bot_user" =>
        client ClientCall.retrieveBotUser
    | "notion_create_database" =>
        if !jsTruthyOpt (jsGet args "parent") || !jsTruthyOpt (jsGet args "properties") then
          Except.error "Missing required arguments: parent and properties"
        else client (ClientCall.createDatabase (jsGet args "parent") (jsGet args "properties")
          (jsGet args "title") (jsGet args "is_inline"))
    | "notion_query_database" =>
        if !jsTruthyOpt (jsGet args "database_id") then
          Except.error "Missing required argument: database_id"
        else client (ClientCall.queryDatabase (jsGet args "database_id") (jsGet args "filter")
          (jsGet args "sorts") (jsGet args "start_cursor") (jsGet args "page_size"))
    | "notion_retrieve_database" =>
        if !jsTruthyOpt (jsGet args "database_id") then
          Except.error "Missing required argument: database_id"
        else client (ClientCall.retrieveDatabase (jsGet args "database_id"))
    | "notion_update_database" =>
        if !jsTruthyOpt (jsGet args "database_id") then
          Except.error "Missing required argument: database_id"
        else client (ClientCall.updateDatabase (jsGet args "database_id") (jsGet args "title")
          (jsGet args "description") (jsGet args "properties"))
    | "notion_create_database_item" =>
        if !jsTruthyOpt (jsGet args "parent") || !jsTruthyOpt (jsGet args "properties") then
          Except.error "Missing required arguments: parent and properties"
        else client (ClientCall.createDatabaseItem (jsGet args "parent") (jsGet args "properties"))
    | "notion_create_comment" =>
        if !jsTruthyOpt (jsGet args "parent") || !jsTruthyOpt (jsGet args "rich_text") then
          Except.error "Missing required arguments: parent and rich_text"
        else client (ClientCall.createComment (jsGet args "parent") (jsGet args "rich_text"))
    | "notion_retrieve_comments" =>
        if !jsTruthyOpt (jsGet args "block_id") then
          Except.error "Missing required argument: block_id"
        else client (ClientCall.retrieveComments (jsGet args "block_id")
          (jsGet args "start_cursor") (jsGet args "page_size"))
    | "notion_search" =>
        client (ClientCall.search (jsGet args "query") (jsGet args "filter")
          (jsGet args "sort") (jsGet args "start_cursor") (jsGet args "page_size"))
    | other => Except.error ("Unknown tool: " ++ other)

/-- One entry of the content array of a tool result, holding a type tag
(always the string text here) and the text payload. -/
structure ToolContent where
  type : String
  text : String

/-- The response formatting of the handler (http-server.js lines 233-243):
when markdown conversion is enabled and the response is a truthy object,
the markdown branch runs; both branches compute
JSON.stringify(response, null, 2). -/
def formatResponseText (enableMarkdownConversion : Bool) (response : Json) : String :=
  if enableMarkdownConversion && jsTruthy response && jsTypeofObject response then
    jsonStringifyPretty response
  else
    jsonStringifyPretty response

/-- The full CallToolRequest handler: the try block, then either the
response formatting or the catch block, which returns text content holding
JSON.stringify of an object with the error message (lines 244-256). -/
def handleCallTool (enableMarkdownConversion : Bool)
    (client : ClientCall → Except String Json) (req : CallToolRequest) : List ToolContent :=
  match handleCallToolBody client req with
  | Except.ok response => [⟨"text", formatResponseText enableMarkdownConversion response⟩]
  | Except.error msg =>
      [⟨"text", Json.stringifyCompact (Json.obj [("error", Json.str msg)])⟩]

/-- Response body of the simulated 429 pages in the retry scenarios. -/
def rateLimitedBody : Json :=
  Json.obj [("message", Json.str "Rate limited"), ("code", Json.str "rate_limited")]

/-- Response body of the simulated 200 page in the retry scenarios. -/
def successBody : Json :=
  Json.obj [("object", Json.str "page"), ("id", Json.str "abc123")]

/-- Fetch outcomes of the scenario from the specification: two consecutive
429 responses without a Retry-After header, then a 200 response. -/
def outcomesTwo429 : Nat → FetchOutcome := fun i =>
  if i < 2 then FetchOutcome.response 429 none rateLimitedBody "Too Many Requests"
  else FetchOutcome.response 200 none successBody "OK"

/-- Response body of the simulated 500 responses. -/
def serverErrorBody : Json :=
  Json.obj [("message", Json.str "Internal error"), ("code", Json.str "internal_server_error")]

/-- Fetch outcomes for a server that always answers 500. -/
def outcomes500 : Nat → FetchOutcome := fun _ =>
  FetchOutcome.response 500 none serverErrorBody "Internal Server Error"

/-- Response body of the simulated 404 response. -/
def notFoundBody : Json :=
  Json.obj [("message", Json.str "Could not find page"), ("code", Json.str "object_not_found")]

/-- Fetch outcomes for a server that always answers 404. -/
def outcomes404 : Nat → FetchOutcome := fun _ =>
  FetchOutcome.response 404 none notFoundBody "Not Found"

/-- Fetch outcomes for a server that always answers 429 with a Retry-After
header that parseInt cannot parse. -/
def outcomes429Abc : Nat → FetchOutcome := fun _ =>
  FetchOutcome.response 429 (some "abc") (Json.obj []) "Too Many Requests"

/-- First page of the simulated multi-page database: two rows, more pages
behind cursor c1. -/
def pageA : QueryResponse := ⟨[Json.str "a1", Json.str "a2"], true, some "c1"⟩

/-- Second page: one row, more pages behind cursor c2. -/
def pageB : QueryResponse := ⟨[Json.str "b1"], true, some "c2"⟩

/-- Third page: one row, no more pages. -/
def pageC : QueryResponse := ⟨[Json.str "crow"], false, none⟩

/-- Variant of the second page that ends the walk. -/
def pageBFinal : QueryResponse := ⟨[Json.str "b1"], false, none⟩

/-- Server with three pages available. -/
def fetchThreePages : Option String → QueryResponse := fun c =>
  match c with
  | some "c1" => pageB
  | some "c2" => pageC
  | _ => pageA

/-- Server with two pages available, the second one final. -/
def fetchTwoPages : Option String → QueryResponse := fun c =>
  match c with
  | some "c1" => pageBFinal
  | _ => pageA

/-- Server exhibiting the upstream quirk: has_more true with the literal
string null as next_cursor. -/
def fetchNullQuirk : Option String → QueryResponse := fun _ =>
  ⟨[Json.str "row1"], true, some "null"⟩

/-- Body of the while-true loop of getFullProperty (docs/pain-points.md
lines 198-217): fetch with the current cursor, concatenate
response.results, break when has_more is false, otherwise set cursor to
next_cursor with no validation and continue. The source loop has no
bound; fuel here is only the observation window, the number of further
iterations the embedding unrolls, so a run that exhausts its fuel is a
truncated view of a loop that is still going. -/
def getFullPropertyGo (fetch : Option String → QueryResponse) :
    Option String → Nat → WalkResult
  | cursor, 0 => ⟨[cursor], (fetch cursor).results⟩
  | cursor, fuel + 1 =>
      if (fetch cursor).has_more then
        ⟨cursor :: (getFullPropertyGo fetch (fetch cursor).next_cursor fuel).requests,
          (fetch cursor).results ++
            (getFullPropertyGo fetch (fetch cursor).next_cursor fuel).rows⟩
      else ⟨[cursor], (fetch cursor).results⟩

theorem requestGo_requests_le (outcomes : Nat → FetchOutcome) :
    ∀ (fuel attempt : Nat), (requestGo outcomes attempt fuel).requests ≤ fuel := by
  intro fuel
  induction fuel with
  | zero => intro attempt; exact Nat.le_refl 0
  | succ f ih =>
    intro attempt
    unfold requestGo
    cases h0 : outcomes attempt with
    | networkError msg =>
      dsimp only
      by_cases hf : f ≠ 0
      · rw [if_pos hf]
        have := ih (attempt + 1)
        show (requestGo outcomes (attempt + 1) f).requests + 1 ≤ f + 1
        omega
      · rw [if_neg hf]
        show 1 ≤ f + 1
        omega
    | response status retryAfter body statusText =>
      dsimp only
      by_cases hc : status = 429 ∧ f ≠ 0
      · rw [if_pos hc]
        have := ih (attempt + 1)
        show (requestGo outcomes (attempt + 1) f).requests + 1 ≤ f + 1
        omega
      · rw [if_neg hc]
        by_cases hok : 200 ≤ status ∧ status < 300
        · rw [if_pos hok]
          show 1 ≤ f + 1
          omega
        · rw [if_neg hok]
          show 1 ≤ f + 1
          omega

theorem requestGo_network_exhausts (outcomes : Nat → FetchOutcome) :
    ∀ (fuel attempt : Nat) (msg : String),
      (requestGo outcomes attempt fuel).result = Except.error (RequestError.networkError msg) →
      (requestGo outcomes attempt fuel).requests = fuel := by
  intro fuel
  induction fuel with
  | zero => intro attempt msg h; simp [requestGo] at h
  | succ f ih =>
    intro attempt msg h
    unfold requestGo at h ⊢
    cases h0 : outcomes attempt with
    | networkError m =>
      rw [h0] at h
      dsimp only at h ⊢
      by_cases hf : f ≠ 0
      · rw [if_pos hf] at h ⊢
        have := ih (attempt + 1) msg h
        show (requestGo outcomes (attempt + 1) f).requests + 1 = f + 1
        omega
      · rw [if_neg hf] at h ⊢
        show 1 = f + 1
        omega
    | response status retryAfter body statusText =>
      rw [h0] at h
      dsimp only at h ⊢
      by_cases hc : status = 429 ∧ f ≠ 0
      · rw [if_pos hc] at h ⊢
        have := ih (attempt + 1) msg h
        show (requestGo outcomes (attempt + 1) f).requests + 1 = f + 1
        omega
      · rw [if_neg hc] at h ⊢
        by_cases hok : 200 ≤ status ∧ status < 300
        · rw [if_pos hok] at h
          simp at h
        · rw [if_neg hok] at h
          simp at h

theorem requestGo_const_network (msg : String) :
    ∀ (fuel attempt : Nat), 1 ≤ fuel →
      requestGo (fun _ => FetchOutcome.networkError msg) attempt fuel =
        ⟨fuel, expDelaysFrom attempt (fuel - 1),
          Except.error (RequestError.networkError msg)⟩ := by
  intro fuel
  induction fuel with
  | zero => intro attempt h; omega
  | succ f ih =>
    intro attempt _
    unfold requestGo
    dsimp only
    cases f with
    | zero =>
      rw [if_neg (by omega)]
      rfl
    | succ g =>
      rw [if_pos (by omega)]
      rw [ih (attempt + 1) (by omega)]
      show (⟨(g + 1) + 1, some ((2 : Int) ^ (attempt + 1) * 1000) :: expDelaysFrom (attempt + 1) (g + 1 - 1),
        Except.error (RequestError.networkError msg)⟩ : RunResult) = _
      rfl

/-- C8: for every sequence of fetch outcomes and every maxRetries bound,
the retry loop of NotionClientSimple.request terminates (it is a total
function of its fuel) and sends at most maxRetries network requests for
one logical call: attempt increases strictly on every retry and the loop
exits once attempt reaches maxRetries. -/
theorem c8_attempts_bounded (outcomes : Nat → FetchOutcome) (maxRetries : Nat) :
    (request outcomes maxRetries).requests ≤ maxRetries :=
  requestGo_requests_le outcomes maxRetries 0

/-- C6: simulating two consecutive 429 responses without a Retry-After
header followed by a 200 response, with maxRetries = 4, the request
pipeline sends exactly 3 requests, sleeps 2000 ms and then 4000 ms, and
returns the parsed JSON body of the 200 response with no error. -/
theorem c6_two_429_then_success :
    request outcomesTwo429 4 =
      ⟨3, [some 2000, some 4000], Except.ok successBody⟩ := rfl

/-- C3: for every response with an HTTP status in 400-499 other than 429
arriving on the first attempt, the request pipeline sends exactly one
network request and surfaces the Error built from the response (status,
message, code) immediately, with no retry. -/
theorem c3_client_error_not_retried
    (outcomes : Nat → FetchOutcome) (maxRetries status : Nat)
    (retryAfter : Option String) (body : Json) (statusText : String)
    (h0 : outcomes 0 = FetchOutcome.response status retryAfter body statusText)
    (h400 : 400 ≤ status) (h500 : status < 500) (h429 : status ≠ 429)
    (hm : 1 ≤ maxRetries) :
    (request outcomes maxRetries).requests = 1 ∧
    (request outcomes maxRetries).result = Except.error
      (RequestError.apiError status (apiErrorMessage body statusText) (objGet body "code")) := by
  obtain ⟨f, rfl⟩ : ∃ f, maxRetries = f + 1 := ⟨maxRetries - 1, by omega⟩
  unfold request requestGo
  rw [h0]
  dsimp only
  rw [if_neg (by rintro ⟨h, _⟩; exact h429 h)]
  rw [if_neg (by rintro ⟨h, _⟩; omega)]
  exact ⟨rfl, rfl⟩

/-- Witness for c3_client_error_not_retried: a simulated 404 with
maxRetries = 3 sends exactly one request and surfaces the not-found
error. -/
theorem c3_witness :
    (request outcomes404 3).requests = 1 ∧
    (request outcomes404 3).result = Except.error
      (RequestError.apiError 404 (apiErrorMessage notFoundBody "Not Found")
        (objGet notFoundBody "code")) :=
  c3_client_error_not_retried outcomes404 3 404 none notFoundBody "Not Found"
    rfl (by omega) (by omega) (by omega) (by omega)

/-- C2 counterexample: a 500 (ServerError) response is not retried by the
code. With a server that always answers 500 and maxRetries = 3, exactly
one request is sent and the error surfaces immediately, although the
claim requires retries until maxAttempts is reached with the failure
surfacing only when retries are exhausted. -/
theorem c2_counterexample :
    (request outcomes500 3).requests = 1 ∧
    (request outcomes500 3).result = Except.error
      (RequestError.apiError 500 (Json.str "Internal error")
        (some (Json.str "internal_server_error"))) ∧
    (1 : Nat) ≠ 3 := ⟨rfl, rfl, by omega⟩

/-- C2 as amended: only TransportError is retried on the exponential
path. A network error surfaces to the caller only when the retry budget
is exhausted (the requests sent then equal maxRetries), and a server that
always fails with a network error is retried with the exponential delays
before surfacing; a response with status at least 500 on the first
attempt surfaces immediately after exactly one request, like a client
error. -/
theorem c2_transport_retried_server_error_surfaces :
    (∀ (outcomes : Nat → FetchOutcome) (maxRetries : Nat) (msg : String),
      (request outcomes maxRetries).result = Except.error (RequestError.networkError msg) →
      (request outcomes maxRetries).requests = maxRetries) ∧
    (∀ (msg : String) (maxRetries : Nat), 1 ≤ maxRetries →
      request (fun _ => FetchOutcome.networkError msg) maxRetries =
        ⟨maxRetries, expDelaysFrom 0 (maxRetries - 1),
          Except.error (RequestError.networkError msg)⟩) ∧
    (∀ (outcomes : Nat → FetchOutcome) (maxRetries status : Nat)
      (retryAfter : Option String) (body : Json) (statusText : String),
      outcomes 0 = FetchOutcome.response status retryAfter body statusText →
      500 ≤ status → 1 ≤ maxRetries →
      (request outcomes maxRetries).requests = 1 ∧
      (request outcomes maxRetries).result = Except.error
        (RequestError.apiError status (apiErrorMessage body statusText) (objGet body "code"))) := by
  refine ⟨?_, ?_, ?_⟩
  · intro outcomes maxRetries msg h
    exact requestGo_network_exhausts outcomes maxRetries 0 msg h
  · intro msg maxRetries hm
    exact requestGo_const_network msg maxRetries 0 hm
  · intro outcomes maxRetries status retryAfter body statusText h0 h500 hm
    obtain ⟨f, rfl⟩ : ∃ f, maxRetries = f + 1 := ⟨maxRetries - 1, by omega⟩
    unfold request requestGo
    rw [h0]
    dsimp only
    rw [if_neg (by rintro ⟨h, _⟩; omega)]
    rw [if_neg (by rintro ⟨_, h⟩; omega)]
    exact ⟨rfl, rfl⟩

/-- Witness for c2_transport_retried_server_error_surfaces: a fetch that
always rejects with a network error, under maxRetries = 3, is retried
with delays 2000 ms and 4000 ms and surfaces the network error after
exactly 3 requests. -/
theorem c2_witness :
    request (fun _ => FetchOutcome.networkError "ECONNRESET") 3 =
      ⟨3, expDelaysFrom 0 2, Except.error (RequestError.networkError "ECONNRESET")⟩ :=
  c2_transport_retried_server_error_surfaces.2.1 "ECONNRESET" 3 (by omega)

/-- C1 counterexample: a present but unparseable Retry-After header does
not fall back to the exponential schedule. With a server that always
answers 429 carrying Retry-After abc, the two recorded pre-jitter delays
are NaN (parseInt of abc times 1000), not the 2000 ms and 4000 ms the
claim requires for every retryable failure without a parseable value. -/
theorem c1_counterexample :
    (request outcomes429Abc 3).delays = [none, none] ∧
    ([none, none] : List (Option Int)) ≠ [some 2000, some 4000] :=
  ⟨rfl, by decide⟩

/-- C1 as amended: on a 429, the pre-jitter wait is the parsed Retry-After
value times 1000 ms whenever the header is present and parseInt parses
it; the exponential fallback 2^(attempt+1) times 1000 ms applies exactly
when the header is absent or the empty string, giving 2000, 4000 and
8000 ms on the first three retries; a present, non-empty header that
parseInt cannot parse yields NaN instead of the fallback. The
executeWithRetry delay of docs/rate-limiting.md computes the same value,
and the delay recorded by the request loop on a first-attempt 429 is this
wait times 1000. -/
theorem c1_delay_schedule :
    (∀ (s : String) (n : Int) (attempt : Nat), jsParseInt s = some n →
      (rateLimitWaitSeconds (some s) attempt).map (fun m => m * 1000) = some (n * 1000)) ∧
    (∀ (attempt : Nat),
      (rateLimitWaitSeconds none attempt).map (fun m => m * 1000) =
        some ((2 : Int) ^ (attempt + 1) * 1000) ∧
      (rateLimitWaitSeconds (some "") attempt).map (fun m => m * 1000) =
        some ((2 : Int) ^ (attempt + 1) * 1000)) ∧
    (∀ (s : String) (attempt : Nat), s ≠ "" → jsParseInt s = none →
      rateLimitWaitSeconds (some s) attempt = none) ∧
    ((rateLimitWaitSeconds none 0).map (fun m => m * 1000) = some 2000 ∧
      (rateLimitWaitSeconds none 1).map (fun m => m * 1000) = some 4000 ∧
      (rateLimitWaitSeconds none 2).map (fun m => m * 1000) = some 8000) ∧
    (∀ (retryAfter : Option String) (attempt : Nat),
      executeWithRetryDelay retryAfter attempt =
        (rateLimitWaitSeconds retryAfter attempt).map (fun m => m * 1000)) ∧
    (∀ (outcomes : Nat → FetchOutcome) (maxRetries : Nat)
      (retryAfter : Option String) (body : Json) (statusText : String),
      outcomes 0 = FetchOutcome.response 429 retryAfter body statusText →
      2 ≤ maxRetries →
      (request outcomes maxRetries).delays.head? =
        some ((rateLimitWaitSeconds retryAfter 0).map (fun m => m * 1000))) := by
  refine ⟨?_, ?_, ?_, ?_, ?_, ?_⟩
  · intro s n attempt h
    have hne : s ≠ "" := by
      intro he
      rw [he] at h
      simp [jsParseInt] at h
    have ht : jsTruthyStr (some s) = true := by simp [jsTruthyStr, hne]
    unfold rateLimitWaitSeconds
    rw [if_pos ht]
    show (jsParseInt s).map (fun m => m * 1000) = some (n * 1000)
    rw [h]
    rfl
  · intro attempt
    exact ⟨rfl, rfl⟩
  · intro s attempt hne h
    have ht : jsTruthyStr (some s) = true := by simp [jsTruthyStr, hne]
    unfold rateLimitWaitSeconds
    rw [if_pos ht]
    show jsParseInt s = none
    exact h
  · exact ⟨rfl, rfl, rfl⟩
  · intro retryAfter attempt
    unfold executeWithRetryDelay rateLimitWaitSeconds
    by_cases ht : jsTruthyStr retryAfter = true
    · rw [if_pos ht, if_pos ht]
    · rw [if_neg ht, if_neg ht]
      rfl
  · intro outcomes maxRetries retryAfter body statusText h0 hm
    obtain ⟨f, rfl⟩ : ∃ f, maxRetries = f + 2 := ⟨maxRetries - 2, by omega⟩
    unfold request requestGo
    rw [h0]
    dsimp only
    rw [if_pos ⟨rfl, by omega⟩]
    rfl

/-- Witness for c1_delay_schedule: a 429 with Retry-After 7 on attempt 0
waits 7000 ms before jitter. -/
theorem c1_witness :
    (rateLimitWaitSeconds (some "7") 0).map (fun m => m * 1000) = some (7 * 1000) :=
  c1_delay_schedule.1 "7" 7 0 rfl

theorem validNextCursor_spec {r : QueryResponse} (h : validNextCursor r = true) :
    r.has_more = true ∧ ∃ s, r.next_cursor = some s ∧ s ≠ "" ∧ s ≠ "null" := by
  unfold validNextCursor at h
  cases hc : r.next_cursor with
  | none => rw [hc] at h; simp at h
  | some s =>
    rw [hc] at h
    simp at h
    exact ⟨h.1, s, rfl, h.2.1, h.2.2⟩

theorem validNextCursor_false_of_quirk {r : QueryResponse}
    (h : r.next_cursor = none ∨ r.next_cursor = some "" ∨ r.next_cursor = some "null") :
    validNextCursor r = false := by
  unfold validNextCursor
  rcases h with h | h | h <;> rw [h] <;> simp

theorem getAllRowsGo_no_null (fetch : Option String → QueryResponse) :
    ∀ (fuel : Nat) (cursor : Option String), cursor ≠ some "null" →
      ∀ c ∈ (getAllRowsGo fetch cursor fuel).requests, c ≠ some "null" := by
  intro fuel
  induction fuel with
  | zero =>
    intro cursor hc c hmem
    unfold getAllRowsGo at hmem
    simp at hmem
    rw [hmem]
    exact hc
  | succ f ih =>
    intro cursor hc c hmem
    unfold getAllRowsGo at hmem
    by_cases hv : validNextCursor (fetch cursor) = true
    · rw [if_pos hv] at hmem
      rcases List.mem_cons.mp hmem with h | h
      · rw [h]; exact hc
      · obtain ⟨_, s, hs, _, hnull⟩ := validNextCursor_spec hv
        have : some ((fetch cursor).next_cursor.getD "") ≠ some "null" := by
          rw [hs]
          intro he
          exact hnull (Option.some.injEq _ _ ▸ he)
        exact ih _ this c h
    · rw [if_neg hv] at hmem
      simp at hmem
      rw [hmem]
      exact hc

/-- The validating walker getAllDatabaseRows never issues a request whose
start_cursor is the literal string null, and on a page that reports
has_more true but whose next_cursor is absent, empty, or the literal
string null, its walk stops after that single request, without error,
returning exactly the rows of that page. The claim itself quantifies over
every pagination walk of the repository, and getFullProperty violates it:
see c4_getFullProperty_issues_null_cursor. -/
theorem validating_walker_quirk_stops :
    (∀ (fetch : Option String → QueryResponse) (maxPages : Nat),
      ∀ c ∈ (getAllDatabaseRows fetch maxPages).requests, c ≠ some "null") ∧
    (∀ (fetch : Option String → QueryResponse) (maxPages : Nat),
      (fetch none).has_more = true →
      ((fetch none).next_cursor = none ∨ (fetch none).next_cursor = some "" ∨
        (fetch none).next_cursor = some "null") →
      getAllDatabaseRows fetch maxPages = ⟨[none], (fetch none).results⟩) := by
  constructor
  · intro fetch maxPages
    exact getAllRowsGo_no_null fetch (maxPages - 1) none (by intro h; cases h)
  · intro fetch maxPages _ hq
    have hv : validNextCursor (fetch none) = false := validNextCursor_false_of_quirk hq
    unfold getAllDatabaseRows
    cases hf : maxPages - 1 with
    | zero => rfl
    | succ f =>
      unfold getAllRowsGo
      rw [if_neg (by rw [hv]; intro h; cases h)]

/-- Instance of validating_walker_quirk_stops: a server always answering
has_more true with next_cursor the string null makes the
getAllDatabaseRows walk stop after one request with the single row of
that page. -/
theorem validating_walker_quirk_stops_instance :
    getAllDatabaseRows fetchNullQuirk 100 = ⟨[none], [Json.str "row1"]⟩ :=
  validating_walker_quirk_stops.2 fetchNullQuirk 100 rfl (Or.inr (Or.inr rfl))

theorem getAllRowsGo_chain (fetch : Option String → QueryResponse) :
    ∀ (pages : List QueryResponse) (cursor : Option String) (fuel : Nat),
      pages ≠ [] → pages.length ≤ fuel + 1 → ServesChain fetch cursor pages →
      (getAllRowsGo fetch cursor fuel).rows = (pages.map QueryResponse.results).flatten ∧
      (getAllRowsGo fetch cursor fuel).requests.length = pages.length := by
  intro pages
  induction pages with
  | nil => intro cursor fuel hne; exact absurd rfl hne
  | cons p rest ih =>
    intro cursor fuel _ hlen hchain
    cases rest with
    | nil =>
      obtain ⟨hf, hm⟩ := hchain
      subst hf
      have hv : validNextCursor (fetch cursor) = false := by
        unfold validNextCursor
        rw [hm]
        rfl
      cases fuel with
      | zero =>
        constructor
        · show (fetch cursor).results = ([fetch cursor].map QueryResponse.results).flatten
          simp
        · rfl
      | succ f =>
        unfold getAllRowsGo
        rw [if_neg (by rw [hv]; intro h; cases h)]
        constructor
        · show (fetch cursor).results = ([fetch cursor].map QueryResponse.results).flatten
          simp
        · rfl
    | cons q rest2 =>
      obtain ⟨hf, hv, hchain2⟩ := hchain
      subst hf
      obtain ⟨f, rfl⟩ : ∃ f, fuel = f + 1 := by
        simp at hlen
        exact ⟨fuel - 1, by omega⟩
      unfold getAllRowsGo
      rw [if_pos hv]
      have ih2 := ih (some ((fetch cursor).next_cursor.getD "")) f (by simp)
        (by simp at hlen ⊢; omega) hchain2
      constructor
      · show (fetch cursor).results ++
          (getAllRowsGo fetch (some ((fetch cursor).next_cursor.getD "")) f).rows =
          ((fetch cursor :: q :: rest2).map QueryResponse.results).flatten
        rw [ih2.1]
        simp
      · show (cursor ::
          (getAllRowsGo fetch (some ((fetch cursor).next_cursor.getD "")) f).requests).length =
          (fetch cursor :: q :: rest2).length
        simp [ih2.2]

/-- C5: when the server serves a chain of pages where every page but the
last reports has_more true with a valid cursor and the last reports
has_more false, and the chain fits under the page ceiling, the walker
returns exactly the concatenation of the per-page results arrays in
arrival order: its length is the sum of the per-page lengths, one request
per page, nothing reordered, dropped or deduplicated. -/
theorem c5_accumulates_in_order
    (fetch : Option String → QueryResponse) (pages : List QueryResponse) (maxPages : Nat)
    (hne : pages ≠ []) (hlen : pages.length ≤ maxPages)
    (hchain : ServesChain fetch none pages) :
    (getAllDatabaseRows fetch maxPages).rows = (pages.map QueryResponse.results).flatten ∧
    (getAllDatabaseRows fetch maxPages).rows.length =
      (pages.map (fun p => p.results.length)).sum ∧
    (getAllDatabaseRows fetch maxPages).requests.length = pages.length := by
  have h := getAllRowsGo_chain fetch pages none (maxPages - 1) hne (by omega) hchain
  unfold getAllDatabaseRows
  refine ⟨h.1, ?_, h.2⟩
  rw [h.1, List.length_flatten, List.map_map]
  rfl

/-- Witness for c5_accumulates_in_order: a two-page chain (two rows then
one row) accumulates all three rows in order with one request per page. -/
theorem c5_witness :
    (getAllDatabaseRows fetchTwoPages 100).rows =
      ([pageA, pageBFinal].map QueryResponse.results).flatten ∧
    (getAllDatabaseRows fetchTwoPages 100).rows.length =
      ([pageA, pageBFinal].map (fun p => p.results.length)).sum ∧
    (getAllDatabaseRows fetchTwoPages 100).requests.length = 2 :=
  c5_accumulates_in_order fetchTwoPages [pageA, pageBFinal] 100 (by simp)
    (by simp) ⟨rfl, rfl, rfl, rfl⟩

/-- C7 counterexample: the walker output carries no truncation tag. A walk
over a server with three pages available, truncated by the page ceiling 2,
returns exactly the same value as an exhausted walk over a server whose
second page is final, so the caller cannot distinguish the two; the claim
requires the truncated result to be distinguishable. The ceiling is
respected: exactly 2 requests are sent. -/
theorem c7_counterexample :
    getAllDatabaseRows fetchThreePages 2 = getAllDatabaseRows fetchTwoPages 2 ∧
    (getAllDatabaseRows fetchThreePages 2).requests.length = 2 :=
  ⟨rfl, rfl⟩

theorem getAllRowsGo_more (fetch : Option String → QueryResponse) :
    ∀ (pages : List QueryResponse) (cursor : Option String) (fuel : Nat),
      pages.length = fuel + 1 → ServesMore fetch cursor pages →
      (getAllRowsGo fetch cursor fuel).requests.length = fuel + 1 ∧
      (getAllRowsGo fetch cursor fuel).rows = (pages.map QueryResponse.results).flatten := by
  intro pages
  induction pages with
  | nil =>
    intro cursor fuel hlen
    simp at hlen
  | cons p rest ih =>
    intro cursor fuel hlen hmore
    obtain ⟨hf, hv, hmore2⟩ := hmore
    subst hf
    cases rest with
    | nil =>
      have hz : fuel = 0 := by simp at hlen; omega
      subst hz
      constructor
      · rfl
      · show (fetch cursor).results = ([fetch cursor].map QueryResponse.results).flatten
        simp
    | cons q rest2 =>
      obtain ⟨f, rfl⟩ : ∃ f, fuel = f + 1 := by
        simp at hlen
        exact ⟨fuel - 1, by omega⟩
      unfold getAllRowsGo
      rw [if_pos hv]
      have ih2 := ih (some ((fetch cursor).next_cursor.getD "")) f
        (by simp at hlen ⊢; omega) hmore2
      constructor
      · show (cursor ::
          (getAllRowsGo fetch (some ((fetch cursor).next_cursor.getD "")) f).requests).length =
          (f + 1) + 1
        simp [ih2.1]
      · show (fetch cursor).results ++
          (getAllRowsGo fetch (some ((fetch cursor).next_cursor.getD "")) f).rows =
          ((fetch cursor :: q :: rest2).map QueryResponse.results).flatten
        rw [ih2.2]
        simp

/-- C7 as amended: when the page ceiling is reached while every served
page still reports has_more true with a valid cursor, the walk stops
after exactly ceiling requests and returns the rows of the first ceiling
pages concatenated in order, with no error; the returned value is a bare
row array carrying no truncation tag. -/
theorem c7_ceiling_stops_untagged
    (fetch : Option String → QueryResponse) (pages : List QueryResponse) (maxPages : Nat)
    (hm : 1 ≤ maxPages) (hlen : pages.length = maxPages)
    (hmore : ServesMore fetch none pages) :
    (getAllDatabaseRows fetch maxPages).requests.length = maxPages ∧
    (getAllDatabaseRows fetch maxPages).rows = (pages.map QueryResponse.results).flatten := by
  have hlen2 : pages.length = (maxPages - 1) + 1 := by omega
  have h := getAllRowsGo_more fetch pages none (maxPages - 1) hlen2 hmore
  unfold getAllDatabaseRows
  exact ⟨by rw [h.1]; omega, h.2⟩

/-- Witness for c7_ceiling_stops_untagged: ceiling 2 with three pages
available stops after 2 requests and returns the rows of the first two
pages. -/
theorem c7_witness :
    (getAllDatabaseRows fetchThreePages 2).requests.length = 2 ∧
    (getAllDatabaseRows fetchThreePages 2).rows =
      ([pageA, pageB].map QueryResponse.results).flatten :=
  c7_ceiling_stops_untagged fetchThreePages [pageA, pageB] 2 (by omega) (by simp)
    ⟨rfl, rfl, rfl, rfl, trivial⟩

/-- Client stub used by the handler witnesses: every call resolves with a
fixed JSON object. -/
def stubClient : ClientCall → Except String Json := fun _ =>
  Except.ok (Json.obj [("object", Json.str "user"), ("name", Json.str "bot")])

/-- A CallToolRequest naming a tool the switch does not know. -/
def unknownToolRequest : CallToolRequest :=
  ⟨"notion_bogus_tool", some (Json.obj [("x", Json.num 1)])⟩

/-- A CallToolRequest for the bot-user tool with an empty arguments
object. -/
def botUserRequest : CallToolRequest :=
  ⟨"notion_retrieve_bot_user", some (Json.obj [])⟩

/-- C9: for every CallToolRequest and every client behaviour, the handler
returns a result whose content is a single text entry and never
propagates an exception; whenever the try block fails with a message,
whether from the argument presence check, a missing required argument, an
unknown tool name, or a rejected client call, the text is
JSON.stringify of the object holding that error message. -/
theorem c9_errors_serialized_never_thrown
    (enableMarkdownConversion : Bool) (client : ClientCall → Except String Json)
    (req : CallToolRequest) :
    (∃ t, handleCallTool enableMarkdownConversion client req = [⟨"text", t⟩]) ∧
    (∀ msg, handleCallToolBody client req = Except.error msg →
      handleCallTool enableMarkdownConversion client req =
        [⟨"text", Json.stringifyCompact (Json.obj [("error", Json.str msg)])⟩]) := by
  constructor
  · cases h : handleCallToolBody client req with
    | ok r =>
      exact ⟨formatResponseText enableMarkdownConversion r, by unfold handleCallTool; rw [h]⟩
    | error m =>
      exact ⟨Json.stringifyCompact (Json.obj [("error", Json.str m)]),
        by unfold handleCallTool; rw [h]⟩
  · intro msg h
    unfold handleCallTool
    rw [h]

/-- Witness for c9_errors_serialized_never_thrown: a request naming an
unknown tool yields text content serializing the unknown-tool error. -/
theorem c9_witness :
    handleCallTool false stubClient unknownToolRequest =
      [⟨"text", Json.stringifyCompact
        (Json.obj [("error", Json.str "Unknown tool: notion_bogus_tool")])⟩] :=
  (c9_errors_serialized_never_thrown false stubClient unknownToolRequest).2
    "Unknown tool: notion_bogus_tool" rfl

/-- C10: the markdown branch and the JSON branch of the response
formatting both compute JSON.stringify(response, null, 2), so for every
successful tool response the handler returns that serialization and the
NOTION_MARKDOWN_CONVERSION flag has no effect on the handler output. -/
theorem c10_markdown_flag_no_effect
    (b1 b2 : Bool) (client : ClientCall → Except String Json)
    (req : CallToolRequest) (response : Json) :
    formatResponseText b1 response = jsonStringifyPretty response ∧
    (handleCallToolBody client req = Except.ok response →
      handleCallTool b1 client req = [⟨"text", jsonStringifyPretty response⟩]) ∧
    handleCallTool b1 client req = handleCallTool b2 client req := by
  refine ⟨?_, ?_, ?_⟩
  · simp only [formatResponseText, ite_self]
  · intro h
    simp only [handleCallTool, h, formatResponseText, ite_self]
  · cases h : handleCallToolBody client req with
    | ok r => simp only [handleCallTool, h, formatResponseText, ite_self]
    | error m => simp only [handleCallTool, h]

/-- Witness for c10_markdown_flag_no_effect: with the flag enabled, a
successful bot-user call returns the plain two-space JSON serialization
of the response. -/
theorem c10_witness :
    handleCallTool true stubClient botUserRequest =
      [⟨"text", jsonStringifyPretty
        (Json.obj [("object", Json.str "user"), ("name", Json.str "bot")])⟩] :=
  (c10_markdown_flag_no_effect true false stubClient botUserRequest
    (Json.obj [("object", Json.str "user"), ("name", Json.str "bot")])).2.1 rfl

theorem getFullPropertyGo_quirk_requests :
    ∀ (fuel : Nat) (cursor : Option String),
      (getFullPropertyGo fetchNullQuirk cursor fuel).requests =
        cursor :: List.replicate fuel (some "null") := by
  intro fuel
  induction fuel with
  | zero => intro cursor; rfl
  | succ f ih =>
    intro cursor
    unfold getFullPropertyGo
    rw [if_pos (show (fetchNullQuirk cursor).has_more = true from rfl)]
    show cursor :: (getFullPropertyGo fetchNullQuirk (some "null") f).requests =
      cursor :: List.replicate (f + 1) (some "null")
    rw [ih (some "null"), List.replicate_succ]

/-- C4: evaluation of getFullProperty at the failing input. Over a server
whose page response reports has_more true with next_cursor the literal
string null, the getFullProperty walk of docs/pain-points.md, which sets
cursor to next_cursor with no validation, issues its second request with
start_cursor the string null — within an observation window of one
further iteration the request trace is already none followed by the null
string — and, for every observation window, one request per unrolled
iteration with the null-string cursor: the walk never stops. This
contradicts the claim, which the validating walkers satisfy
(validating_walker_quirk_stops). -/
theorem c4_getFullProperty_issues_null_cursor :
    (getFullPropertyGo fetchNullQuirk none 1).requests = [none, some "null"] ∧
    (∀ fuel, (getFullPropertyGo fetchNullQuirk none fuel).requests =
      none :: List.replicate fuel (some "null")) :=
  ⟨rfl, fun fuel => getFullPropertyGo_quirk_requests fuel none⟩
